import Mathlib

/-!
Shallow embedding of the Loom by Light Arduino sketch
(src/loom_by_light/loom_by_light.ino, version 1.6.3, the later of the two
revisions in the file), together with the earlier-revision fragments that the
development notes reference.

Modelling conventions:
* C `uint32_t` values are `Int` reduced by `u32` (mod 2^32); C `uint8_t`
  values are `Int` reduced by `u8` (mod 256).
* C `int` variables are `Int`.  Where the source mixes `int` with `uint32_t`
  (usual arithmetic conversions promote the `int` operand to `uint32_t`), the
  promotion is modelled explicitly by applying `u32` at that comparison or
  assignment.  A C conversion of a `uint32_t` value back to `int` is modelled
  as the identity; every theorem below only evaluates such assignments at
  values representable in `int`.
* The SD file is a function from absolute byte offset to byte value.
* The `%` of C (which faults on a zero divisor) is `cMod`, returning `none`
  on a zero divisor.
-/

namespace Loom

/-- Value of an expression after C conversion to `uint32_t`: reduction
mod 2^32 (`Int.emod` is non-negative for a positive modulus). -/
def u32 (n : Int) : Int := n % 4294967296

/-- Value of an expression after C conversion to `uint8_t`: reduction mod 256. -/
def u8 (n : Int) : Int := n % 256

/-- Value stored into a C `int` on the sketch's declared target (Arduino UNO
R3, AVR: `int` is 16-bit): reduction into `[-32768, 32767]`.  `toInt16`
depends only on its argument mod 2^16, so a chain of 16-bit `+`, `-`, `*`
operations may be reduced once at the end. -/
def toInt16 (n : Int) : Int := (n + 32768) % 65536 - 32768

/-- C `%` on `int`: faults when the divisor is zero. -/
def cMod (a b : Int) : Option Int := if b = 0 then none else some (a % b)

/-- `#define MAX_LED_COUNT 144` (loom_by_light.ino line 948). -/
def MAX_LED_COUNT : Int := 144

/-- `#define BRIGHTNESS_INCREMENT 1` (line 955). -/
def BRIGHTNESS_INCREMENT : Int := 1

/-- `#define NUM_BYTES_PER_PIXEL 3` (line 962). -/
def NUM_BYTES_PER_PIXEL : Int := 3

/-- The BMP/DIB header fields the sketch stores as globals after
`readFileHeaders` (lines 1488-1523): `imageOffset`, `imageWidth`,
`imageHeight`, `bitsPerPixel`, `compression`.  All are `uint32_t` except
`bitsPerPixel` (`uint16_t`); each is modelled as the `Int` it holds. -/
structure BmpHeader where
  imageOffset : Int
  imageWidth : Int
  imageHeight : Int
  bitsPerPixel : Int
  compression : Int
deriving DecidableEq

/-- `checkFileHeaders` (lines 1530-1562): rejects when `bitsPerPixel != 24`,
then when `compression != 0`; the signature and colour-plane checks are
commented out in the source. -/
def checkFileHeaders (h : BmpHeader) : Bool :=
  if h.bitsPerPixel ≠ 24 then false
  else if h.compression ≠ 0 then false
  else true

/-- The validation invariant the claims quantify over: a bitmap whose header
passed `checkFileHeaders` and has non-degenerate dimensions. -/
def validated (h : BmpHeader) : Prop :=
  h.bitsPerPixel = 24 ∧ h.compression = 0 ∧
    1 ≤ h.imageWidth ∧ 1 ≤ h.imageHeight

instance (h : BmpHeader) : Decidable (validated h) := by
  unfold validated; infer_instance

/-- `_numEmptyBytesPerRow = ((4 - ((3 * imageWidth) % 4)) % 4)`
(readFileHeaders, line 1515).  The source computes this in `uint32_t`;
since 2^32 is a multiple of 4, plain `Int` arithmetic agrees for any
non-negative width. -/
def numEmptyBytesPerRow (imageWidth : Int) : Int :=
  (4 - (3 * imageWidth) % 4) % 4

/-- `_bytesPerRow = (3 * imageWidth) + _numEmptyBytesPerRow` (line 1517):
the sum is computed in `uint32_t` (`imageWidth` is `uint32_t`) and stored
into the 16-bit `int` global `_bytesPerRow` (line 1358), hence
`toInt16 (u32 ...)`. -/
def bytesPerRow (imageWidth : Int) : Int :=
  toInt16 (u32 (3 * imageWidth + numEmptyBytesPerRow imageWidth))

/-- The pixel byte offset computed inside `isLightOnAtColumn` (line 1596):
`int pixelRowFileOffset = imageOffset + ((column - ledOffset) * NUM_BYTES_PER_PIXEL)
 + ((imageHeight - currentRow - 1) * _bytesPerRow)`.
`(column - ledOffset) * 3` is 16-bit `int` arithmetic, so its value is
`toInt16` of the exact product (`toInt16` respects congruence mod 2^16);
that value then joins the `uint32_t` additions (`imageOffset` is `uint32_t`),
and the `uint32_t` stages are reduced once by the outer `u32` (each staged
mod-2^32 reduction preserves the value mod 2^32); the result is stored into
the 16-bit `int pixelRowFileOffset`, hence the outer `toInt16` (which depends
only on the value mod 2^16, preserved by the 2^32 reduction). -/
def pixelRowFileOffset (imageOffset imageWidth imageHeight ledOffset currentRow column : Int) : Int :=
  toInt16 (u32 (imageOffset + toInt16 ((column - ledOffset) * NUM_BYTES_PER_PIXEL) +
    (imageHeight - currentRow - 1) * bytesPerRow imageWidth))

/-- Row stride as the specification words it:
`rowStrideBytes = 3*width + ((4 - (3*width mod 4)) mod 4)` (spec section 4.1). -/
def specRowStrideBytes (width : Int) : Int :=
  3 * width + ((4 - (3 * width) % 4) % 4)

/-- Pixel byte offset as the specification words it:
`offset = pixelDataOffset + column*3 + (height - row - 1) * rowStrideBytes`
(spec section 4.2). -/
def specPixelOffset (pixelDataOffset width height row column : Int) : Int :=
  pixelDataOffset + column * 3 + (height - row - 1) * specRowStrideBytes width

/-- `isPixelTrue` (lines 1605-1614): widens the three `uint8_t` channels to
`int`, sums them, and returns whether the sum is strictly below 384. -/
def isPixelTrue (blue green red : Int) : Bool :=
  blue + green + red < 384

/-- `isLightOnAtColumn` (lines 1590-1600): outside the window
`[ledOffset, ledOffset + imageWidth)` the LED is off; inside it the three
bytes at the computed pixel offset are read and classified.  The `int`
offset is passed to `bmpFile.seek`, whose parameter is `uint32_t`, so the
read position is `u32` of the stored offset.  (The window comparison is
performed in `uint32_t` in the source; for the in-range states the claims
quantify over — `0 ≤ ledOffset`, `ledOffset + imageWidth` far below 2^31,
`0 ≤ column` — the promotion is value-preserving, so the comparison is
written directly on `Int`.) -/
def isLightOnAtColumn (h : BmpHeader) (ledOffset currentRow : Int)
    (file : Int → Int) (column : Int) : Bool :=
  if column < ledOffset ∨ column ≥ ledOffset + h.imageWidth then false
  else
    let off := u32 (pixelRowFileOffset h.imageOffset h.imageWidth h.imageHeight
      ledOffset currentRow column)
    isPixelTrue (file off) (file (off + 1)) (file (off + 2))

/-- The classifier decision for the pixel at a given (logical row, column),
reading the three bytes at the spec's pixel offset (spec sections 4.2-4.3). -/
def classifiedPixelAt (h : BmpHeader) (file : Int → Int) (row column : Int) : Bool :=
  let off := specPixelOffset h.imageOffset h.imageWidth h.imageHeight row column
  isPixelTrue (file off) (file (off + 1)) (file (off + 2))

lemma toInt16_u32_eq (x : Int) (h0 : 0 ≤ x) (h1 : x ≤ 32767) :
    toInt16 (u32 x) = x := by
  unfold toInt16 u32
  omega

lemma bytesPerRow_eq_spec (w : Int) (hw1 : 1 ≤ w)
    (hstride : 3 * w + numEmptyBytesPerRow w ≤ 32767) :
    bytesPerRow w = specRowStrideBytes w := by
  unfold numEmptyBytesPerRow at hstride
  unfold bytesPerRow specRowStrideBytes numEmptyBytesPerRow toInt16 u32
  omega

lemma specRowStrideBytes_nonneg (w : Int) (hw1 : 1 ≤ w) :
    0 ≤ specRowStrideBytes w := by
  unfold specRowStrideBytes
  omega

lemma specPixelOffset_nonneg (pixelDataOffset w hgt row col : Int)
    (hoff0 : 0 ≤ pixelDataOffset) (hw1 : 1 ≤ w)
    (hrow : 0 ≤ row ∧ row < hgt) (hcol0 : 0 ≤ col) :
    0 ≤ specPixelOffset pixelDataOffset w hgt row col := by
  have h1 : 0 ≤ col * 3 := by omega
  have h2 : 0 ≤ (hgt - row - 1) * specRowStrideBytes w :=
    mul_nonneg (by omega) (specRowStrideBytes_nonneg w hw1)
  unfold specPixelOffset
  exact add_nonneg (add_nonneg hoff0 h1) h2

lemma pixelRowFileOffset_eq_spec (h : BmpHeader) (ledOffset row col column : Int)
    (hceq : column - ledOffset = col)
    (hw1 : 1 ≤ h.imageWidth) (hoff0 : 0 ≤ h.imageOffset)
    (hrow : 0 ≤ row ∧ row < h.imageHeight)
    (hcol : 0 ≤ col ∧ col < h.imageWidth)
    (hstride : 3 * h.imageWidth + numEmptyBytesPerRow h.imageWidth ≤ 32767)
    (hrep : specPixelOffset h.imageOffset h.imageWidth h.imageHeight row col ≤ 32767) :
    pixelRowFileOffset h.imageOffset h.imageWidth h.imageHeight ledOffset row column
      = specPixelOffset h.imageOffset h.imageWidth h.imageHeight row col := by
  have hpad : 0 ≤ numEmptyBytesPerRow h.imageWidth ∧
      numEmptyBytesPerRow h.imageWidth < 4 := by
    unfold numEmptyBytesPerRow
    omega
  have hcol3 : toInt16 (col * NUM_BYTES_PER_PIXEL) = col * 3 := by
    unfold toInt16 NUM_BYTES_PER_PIXEL
    omega
  have hD0 : 0 ≤ specPixelOffset h.imageOffset h.imageWidth h.imageHeight row col :=
    specPixelOffset_nonneg h.imageOffset h.imageWidth h.imageHeight row col
      hoff0 hw1 hrow hcol.1
  have harg : h.imageOffset + toInt16 ((column - ledOffset) * NUM_BYTES_PER_PIXEL) +
      (h.imageHeight - row - 1) * bytesPerRow h.imageWidth =
      specPixelOffset h.imageOffset h.imageWidth h.imageHeight row col := by
    rw [hceq, hcol3, bytesPerRow_eq_spec h.imageWidth hw1 hstride]
    unfold specPixelOffset
    ring
  unfold pixelRowFileOffset
  rw [harg]
  exact toInt16_u32_eq _ hD0 hrep

/-- Counterexample to Claim C1 as stated: the 144x100 bitmap
`⟨54, 144, 100, 24, 0⟩` is validated and row 0, column 0 are in range, yet
the code's stored offset is `-22714` (the `uint32_t` value 42822 truncated
into the AVR's 16-bit `int`), not the claimed absolute byte offset 42822. -/
theorem c1_row_geometry_counterexample :
    validated ⟨54, 144, 100, 24, 0⟩ ∧
    ((0 : Int) ≤ 0 ∧ (0 : Int) < 100) ∧ ((0 : Int) ≤ 0 ∧ (0 : Int) < 144) ∧
    pixelRowFileOffset 54 144 100 0 0 (0 + 0) = -22714 ∧
    specPixelOffset 54 144 100 0 0 = 42822 ∧
    pixelRowFileOffset 54 144 100 0 0 (0 + 0) ≠ specPixelOffset 54 144 100 0 0 := by
  decide

/-- Claim C1 (amended): for a validated bitmap and in-range `row`/`column`,
*provided* the row stride and the pixel's absolute offset are representable
in the target's 16-bit `int` (both ≤ 32767; beyond that the `int` store
truncates, see the counterexample), the offset computed for a pixel read
(`isLightOnAtColumn` at LED index `ledOffset + column`) is exactly
`pixelDataOffset + column*3 + (height - row - 1) * rowStrideBytes` with
`rowStrideBytes = 3*width + ((4 - (3*width mod 4)) mod 4)`; in particular at
logical row 0 the stored row addressed is the last one, with offset
`pixelDataOffset + column*3 + (height - 1) * rowStrideBytes`. -/
theorem c1_row_geometry (h : BmpHeader) (ledOffset row column : Int)
    (hval : validated h)
    (hoff0 : 0 ≤ h.imageOffset)
    (hrow : 0 ≤ row ∧ row < h.imageHeight)
    (hcol : 0 ≤ column ∧ column < h.imageWidth)
    (hstride : 3 * h.imageWidth + numEmptyBytesPerRow h.imageWidth ≤ 32767)
    (hrep : specPixelOffset h.imageOffset h.imageWidth h.imageHeight row column
      ≤ 32767) :
    pixelRowFileOffset h.imageOffset h.imageWidth h.imageHeight ledOffset row
        (ledOffset + column) =
      specPixelOffset h.imageOffset h.imageWidth h.imageHeight row column ∧
    (row = 0 →
      pixelRowFileOffset h.imageOffset h.imageWidth h.imageHeight ledOffset row
          (ledOffset + column) =
        h.imageOffset + column * 3 +
          (h.imageHeight - 1) * specRowStrideBytes h.imageWidth) := by
  have hmain := pixelRowFileOffset_eq_spec h ledOffset row column
    (ledOffset + column) (by ring) hval.2.2.1 hoff0 hrow hcol hstride hrep
  refine ⟨hmain, ?_⟩
  intro h0
  subst h0
  rw [hmain]
  unfold specPixelOffset
  ring

/-- Witness for C1: a validated 4x4 bitmap, `ledOffset = 3`, logical row 0,
column 2 (stride 12 and offset 96, both representable); both conclusions
evaluated at these inputs. -/
theorem c1_row_geometry_witness :
    pixelRowFileOffset 54 4 4 3 0 (3 + 2) = specPixelOffset 54 4 4 0 2 ∧
    (0 = (0 : Int) →
      pixelRowFileOffset 54 4 4 3 0 (3 + 2) =
        54 + 2 * 3 + (4 - 1) * specRowStrideBytes 4) :=
  c1_row_geometry ⟨54, 4, 4, 24, 0⟩ 3 0 2 (by decide) (by decide) (by decide)
    (by decide) (by decide) (by decide)

/-- Claim C2: for channel bytes in 0..255 the classifier returns `true` iff
the widened sum `b + g + r` (range 0..765) is strictly less than 384, and a
sum of exactly 384 yields `false`. -/
theorem c2_classifier_threshold (b g r : Int)
    (hb : 0 ≤ b ∧ b ≤ 255) (hg : 0 ≤ g ∧ g ≤ 255) (hr : 0 ≤ r ∧ r ≤ 255) :
    (isPixelTrue b g r = true ↔ b + g + r < 384) ∧
    (b + g + r = 384 → isPixelTrue b g r = false) := by
  constructor
  · unfold isPixelTrue
    exact decide_eq_true_iff
  · intro hsum
    unfold isPixelTrue
    simp [hsum]

/-- Witness for C2: `classify(128,128,128)` is `false` (sum exactly 384), via
the theorem at the concrete channels. -/
theorem c2_classifier_threshold_witness :
    isPixelTrue 128 128 128 = false :=
  (c2_classifier_threshold 128 128 128 (by decide) (by decide) (by decide)).2
    (by decide)

/-- Counterexample to Claim C3 as stated: the 144x100 bitmap is loaded
legitimately (`width = ledCount = 144`, index 0 in range and inside the
window), on a file whose bytes are dark (0) below offset 100000 and light
(255) above; the classifier decision for the pixel at column 0 of row 0
(absolute offset 42822) is `true`, but the code seeks the truncated offset
(`u32` of the 16-bit store `-22714`, i.e. 4294944582) and renders `false`. -/
theorem c3_window_masking_counterexample :
    validated ⟨54, 144, 100, 24, 0⟩ ∧
    ((0 : Int) ≤ 0 ∧ (0 : Int) + 144 ≤ 144) ∧
    ((0 : Int) ≤ 0 ∧ (0 : Int) < 144) ∧
    ((0 : Int) ≤ 0 ∧ (0 : Int) < 0 + 144) ∧
    isLightOnAtColumn ⟨54, 144, 100, 24, 0⟩ 0 0
      (fun i => if i < 100000 then 0 else 255) 0 = false ∧
    classifiedPixelAt ⟨54, 144, 100, 24, 0⟩
      (fun i => if i < 100000 then 0 else 255) 0 (0 - 0) = true := by
  decide

/-- Claim C3 (amended): window masking of `isLightOnAtColumn`.  Outside
`[ledOffset, ledOffset + width)` the result is `false` for every file;
inside, *provided* the row stride and the addressed pixel's absolute offset
are representable in the target's 16-bit `int` (both ≤ 32767; beyond that
the code seeks a truncated offset, see the counterexample), it is the
classifier decision for the pixel at column `i - ledOffset` of the current
row. -/
theorem c3_window_masking (h : BmpHeader) (ledOffset currentRow ledCount i : Int)
    (file : Int → Int)
    (hval : validated h)
    (hoff : 0 ≤ ledOffset ∧ ledOffset + h.imageWidth ≤ ledCount)
    (hi : 0 ≤ i ∧ i < ledCount)
    (hoff0 : 0 ≤ h.imageOffset)
    (hrow : 0 ≤ currentRow ∧ currentRow < h.imageHeight)
    (hstride : 3 * h.imageWidth + numEmptyBytesPerRow h.imageWidth ≤ 32767)
    (hrep : specPixelOffset h.imageOffset h.imageWidth h.imageHeight currentRow
      (i - ledOffset) ≤ 32767) :
    ((i < ledOffset ∨ i ≥ ledOffset + h.imageWidth) →
      isLightOnAtColumn h ledOffset currentRow file i = false) ∧
    ((ledOffset ≤ i ∧ i < ledOffset + h.imageWidth) →
      isLightOnAtColumn h ledOffset currentRow file i =
        classifiedPixelAt h file currentRow (i - ledOffset)) := by
  constructor
  · intro hout
    unfold isLightOnAtColumn
    rw [if_pos hout]
  · intro hin
    have hoffeq : pixelRowFileOffset h.imageOffset h.imageWidth h.imageHeight
        ledOffset currentRow i =
        specPixelOffset h.imageOffset h.imageWidth h.imageHeight currentRow
          (i - ledOffset) :=
      pixelRowFileOffset_eq_spec h ledOffset currentRow (i - ledOffset) i rfl
        hval.2.2.1 hoff0 hrow ⟨by omega, by omega⟩ hstride hrep
    have hD0 : 0 ≤ specPixelOffset h.imageOffset h.imageWidth h.imageHeight
        currentRow (i - ledOffset) :=
      specPixelOffset_nonneg h.imageOffset h.imageWidth h.imageHeight currentRow
        (i - ledOffset) hoff0 hval.2.2.1 hrow (by omega)
    have hseek : u32 (pixelRowFileOffset h.imageOffset h.imageWidth h.imageHeight
        ledOffset currentRow i) =
        specPixelOffset h.imageOffset h.imageWidth h.imageHeight currentRow
          (i - ledOffset) := by
      rw [hoffeq]
      unfold u32
      omega
    unfold isLightOnAtColumn classifiedPixelAt
    rw [if_neg (by omega)]
    rw [hseek]

/-- Witness for C3: `ledCount = 10`, `ledOffset = 3`, `width = 4`: index 5
(inside the `3..6` window) follows the classifier on a concrete all-dark
file (stride 12, offset 60, representable). -/
theorem c3_window_masking_witness :
    (((5 : Int) < 3 ∨ (5 : Int) ≥ 3 + (4 : Int)) →
      isLightOnAtColumn ⟨54, 4, 4, 24, 0⟩ 3 0 (fun _ => 0) 5 = false) ∧
    (((3 : Int) ≤ 5 ∧ (5 : Int) < 3 + (4 : Int)) →
      isLightOnAtColumn ⟨54, 4, 4, 24, 0⟩ 3 0 (fun _ => 0) 5 =
        classifiedPixelAt ⟨54, 4, 4, 24, 0⟩ (fun _ => 0) 0 (5 - 3)) :=
  c3_window_masking ⟨54, 4, 4, 24, 0⟩ 3 0 10 5 (fun _ => 0)
    (by decide) (by decide) (by decide) (by decide) (by decide) (by decide)
    (by decide)

/-- Calls made to the strip output driver: `setPixel(index, on)` (via
`setLedToBool`, lines 1337-1348) and `show()`. -/
inductive StripEvent where
  | setPixel : Int → Bool → StripEvent
  | showStrip : StripEvent
deriving DecidableEq

/-- Index carried by a `setPixel` event, `none` for `show()`. -/
def stripEventIndex : StripEvent → Option Int
  | .setPixel i _ => some i
  | .showStrip => none

/-- The driver calls emitted by the loop
`for (int i=0; i<ledCount; i++) setLedToBool(i, isLightOnAtColumn(i));`
of `showLightsForRow` (lines 1660-1666), as a list of events: after `n`
iterations the events are `setPixel 0 .. setPixel (n-1)` in that order. -/
def renderLoopEvents (f : Int → Bool) : Nat → List StripEvent
  | 0 => []
  | n + 1 => renderLoopEvents f n ++ [StripEvent.setPixel (n : Int) (f (n : Int))]

/-- `showLightsForRow` (lines 1660-1666): the full-row render trace — the
per-index loop followed by the single `strip->show()`. -/
def showLightsForRowEvents (h : BmpHeader) (ledOffset currentRow : Int)
    (file : Int → Int) (ledCount : Int) : List StripEvent :=
  renderLoopEvents (isLightOnAtColumn h ledOffset currentRow file) ledCount.toNat
    ++ [StripEvent.showStrip]

lemma renderLoopEvents_count_show (f : Int → Bool) (n : Nat) :
    (renderLoopEvents f n).countP (fun e => e == StripEvent.showStrip) = 0 := by
  induction n with
  | zero => rfl
  | succ n ih =>
    simp only [renderLoopEvents, List.countP_append, ih, Nat.zero_add]
    rfl

lemma renderLoopEvents_filterMap (f : Int → Bool) (n : Nat) :
    (renderLoopEvents f n).filterMap stripEventIndex =
      (List.range n).map Int.ofNat := by
  induction n with
  | zero => rfl
  | succ n ih =>
    rw [renderLoopEvents, List.filterMap_append, ih, List.range_succ,
      List.map_append]
    rfl

lemma renderLoopEvents_mem (f : Int → Bool) (n : Nat) (i : Int) (b : Bool) :
    StripEvent.setPixel i b ∈ renderLoopEvents f n → b = f i := by
  induction n with
  | zero => intro hmem; cases hmem
  | succ n ih =>
    intro hmem
    rcases List.mem_append.mp hmem with hpre | hlast
    · exact ih hpre
    · rcases List.mem_singleton.mp hlast with heq
      injection heq with hi hb
      rw [hi, hb]

/-- Claim C6: within one full-row render of `showLightsForRow`, the trace
contains exactly one `show()` event; it is the last event (so no `show()`
occurs mid-computation); the `setPixel` calls cover exactly the indices
`0 .. ledCount-1` in increasing order; and every staged value is the mapper's
decision `isLightOnAtColumn` for that index. -/
theorem c6_single_show_per_render (h : BmpHeader) (ledOffset currentRow : Int)
    (file : Int → Int) (ledCount : Int) :
    (showLightsForRowEvents h ledOffset currentRow file ledCount).countP
        (fun e => e == StripEvent.showStrip) = 1 ∧
    (showLightsForRowEvents h ledOffset currentRow file ledCount).getLast? =
      some StripEvent.showStrip ∧
    (showLightsForRowEvents h ledOffset currentRow file ledCount).filterMap
        stripEventIndex = (List.range ledCount.toNat).map Int.ofNat ∧
    (∀ i b, StripEvent.setPixel i b ∈
        showLightsForRowEvents h ledOffset currentRow file ledCount →
      b = isLightOnAtColumn h ledOffset currentRow file i) := by
  refine ⟨?_, ?_, ?_, ?_⟩
  · rw [showLightsForRowEvents, List.countP_append, renderLoopEvents_count_show]
    rfl
  · rw [showLightsForRowEvents, List.getLast?_concat]
  · rw [showLightsForRowEvents, List.filterMap_append, renderLoopEvents_filterMap]
    simp [stripEventIndex]
  · intro i b hmem
    rcases List.mem_append.mp hmem with hpre | hlast
    · exact renderLoopEvents_mem _ _ _ _ hpre
    · rcases List.mem_singleton.mp hlast with heq
      cases heq

/-- `checkLedOffset` (lines 1804-1811).  In the source both comparison
operands are promoted to `uint32_t` (`imageWidth` is `uint32_t`), so the
comparison and the assigned upper bound go through `u32`; the `uint32_t`
value assigned back to the `int` global is representable under every use
below. -/
def checkLedOffset (imageWidth ledCount ledOffset : Int) : Int :=
  if u32 ledOffset > u32 (ledCount - imageWidth) then u32 (ledCount - imageWidth)
  else if ledOffset < 0 then 0
  else ledOffset

/-- `writeEepromLedOffset` (lines 1827-1831): sets the global to the requested
offset, clamps it with `checkLedOffset`, persists it. -/
def writeEepromLedOffset (imageWidth ledCount offset : Int) : Int :=
  checkLedOffset imageWidth ledCount offset

/-- Claim C7: with a bitmap loaded (`1 ≤ width ≤ ledCount ≤ MAX_LED_COUNT`),
the clamp establishes `0 ≤ ledOffset ≤ ledCount - width` for every `int`
input; an input beyond `ledCount - width` is clamped to exactly
`ledCount - width`; and the `ledOffset` setter is the clamp applied to the
requested value. -/
theorem c7_offset_clamp (w lc off : Int)
    (hw : 1 ≤ w) (hwlc : w ≤ lc) (hlc : lc ≤ MAX_LED_COUNT)
    (hoff : -2147483648 ≤ off ∧ off < 2147483648) :
    (0 ≤ checkLedOffset w lc off ∧ checkLedOffset w lc off ≤ lc - w) ∧
    (lc - w < off → checkLedOffset w lc off = lc - w) ∧
    writeEepromLedOffset w lc off = checkLedOffset w lc off := by
  unfold MAX_LED_COUNT at hlc
  refine ⟨?_, ?_, rfl⟩
  · unfold checkLedOffset u32
    split_ifs with h1 h2 <;> omega
  · intro hbeyond
    unfold checkLedOffset u32
    split_ifs with h1 <;> omega

/-- Witness for C7: `width = 4`, `ledCount = 10`, requested offset 100 clamps
to exactly `10 - 4 = 6`. -/
theorem c7_offset_clamp_witness :
    (0 ≤ checkLedOffset 4 10 100 ∧ checkLedOffset 4 10 100 ≤ 10 - 4) ∧
    ((10 : Int) - 4 < 100 → checkLedOffset 4 10 100 = 10 - 4) ∧
    writeEepromLedOffset 4 10 100 = checkLedOffset 4 10 100 :=
  c7_offset_clamp 4 10 100 (by decide) (by decide) (by decide) (by decide)

/-- `readEepromRow` (lines 1852-1859): reads the persisted row; if
`currentRow < 0` or `currentRow >= imageHeight` (the latter an unsigned
comparison after promotion) the row is set to `imageHeight - 1`. -/
def readEepromRow (imageHeight stored : Int) : Int :=
  if stored < 0 ∨ u32 stored ≥ u32 imageHeight then imageHeight - 1 else stored

/-- Claim C8 (code bug): a persisted `currentRow` outside `[0, height-1]` is
reset by the code to `imageHeight - 1`, not to the documented default 0: with
`imageHeight = 4`, stored values 100 and -5 both produce row 3.  The
function's own comment (line 1850) and the earlier revision
(src/unnamed/part_001 lines 1321-1329) say the reset value is 0. -/
theorem c8_row_reset_value :
    readEepromRow 4 100 = 3 ∧ readEepromRow 4 (-5) = 3 ∧
      readEepromRow 4 100 ≠ 0 := by
  refine ⟨by decide, by decide, by decide⟩

/-- `int byteIndex = pixelIndex / 8` from `isTrueForBitInByteArray`
(lines 664-670 of the earlier revision kept in the file; identical in
src/unnamed/part_003 lines 972-978). -/
def byteIndex (pixelIndex : Int) : Int := pixelIndex / 8

/-- `int bitInByteIndex = (pixelIndex % (byteIndex * 8))` from the same
function: a C modulo whose divisor is `byteIndex * 8`. -/
def bitInByteIndex (pixelIndex : Int) : Option Int :=
  cMod pixelIndex (byteIndex pixelIndex * 8)

/-- Claim C9: for every `pixelIndex` in 0..7 the divisor `byteIndex * 8` is
zero, so the modulo faults (its error branch is reached) instead of computing
the intended `pixelIndex % 8`. -/
theorem c9_bit_index_divisor_zero (p : Int) (hp : 0 ≤ p ∧ p ≤ 7) :
    byteIndex p * 8 = 0 ∧ bitInByteIndex p = none ∧
      bitInByteIndex p ≠ some (p % 8) := by
  have hb : byteIndex p = 0 := by
    unfold byteIndex
    omega
  refine ⟨by rw [hb]; ring, ?_, ?_⟩
  · unfold bitInByteIndex cMod
    rw [hb]
    simp
  · unfold bitInByteIndex cMod
    rw [hb]
    simp

/-- Witness for C9: `pixelIndex = 5` has zero divisor and a faulting modulo. -/
theorem c9_bit_index_divisor_zero_witness :
    byteIndex 5 * 8 = 0 ∧ bitInByteIndex 5 = none ∧
      bitInByteIndex 5 ≠ some (5 % 8) :=
  c9_bit_index_divisor_zero 5 (by decide)

/-- `increaseBrightnessVar` (lines 1738-1744): `uint8_t` increment with a
guard `brightness > 255` (never true for a `uint8_t`). -/
def increaseBrightnessVar (b : Int) : Int :=
  let b1 := u8 (b + BRIGHTNESS_INCREMENT)
  if b1 > 255 then 0 else b1

/-- `decreaseBrightnessVar` (lines 1749-1755): `uint8_t` decrement
(wrapping mod 256) followed by the guard `brightness <= 0`. -/
def decreaseBrightnessVar (b : Int) : Int :=
  let b1 := u8 (b - BRIGHTNESS_INCREMENT)
  if b1 ≤ 0 then 255 else b1

/-- Claim C10: when the true difference `b - BRIGHTNESS_INCREMENT` is below 0
the `uint8_t` subtraction wraps mod 256; after such wraparound the guard
`brightness <= 0` is false, and the stored brightness is
`(b - BRIGHTNESS_INCREMENT) mod 256`, not a value set by the guard. -/
theorem c10_brightness_underflow (b : Int)
    (hb : 0 ≤ b ∧ b ≤ 255) (hwrap : b - BRIGHTNESS_INCREMENT < 0) :
    decreaseBrightnessVar b = u8 (b - BRIGHTNESS_INCREMENT) ∧
      ¬ (u8 (b - BRIGHTNESS_INCREMENT) ≤ 0) := by
  have hb0 : b = 0 := by
    unfold BRIGHTNESS_INCREMENT at hwrap
    omega
  subst hb0
  refine ⟨by decide, by decide⟩

/-- Witness for C10: decrementing brightness 0 wraps to 255 with the guard
false. -/
theorem c10_brightness_underflow_witness :
    decreaseBrightnessVar 0 = u8 (0 - BRIGHTNESS_INCREMENT) ∧
      ¬ (u8 ((0 : Int) - BRIGHTNESS_INCREMENT) ≤ 0) :=
  c10_brightness_underflow 0 (by decide) (by decide)

/-- The failure branches of `verifyFile` (lines 1439-1481), in source order.
Each branch displays a message and ends with `fileOk = false`:
"unable to open file", "Unable to read file headers", "Not compatable file"
(the spec's `UnsupportedFormatError`), "Image width greater then LED count"
(the spec's `ImageTooWideError`). -/
inductive VerifyFailure where
  | unableToOpenFile
  | unableToReadHeaders
  | notCompatibleFile
  | widthGreaterThanLedCount
deriving DecidableEq

/-- `verifyFile` (lines 1439-1481) as the failure branch it takes, `none` on
success: no open file; `readFileHeaders` false (which in the source happens
exactly when the file is not open, lines 1488-1523); `checkFileHeaders`
false; `ledCount < imageWidth` (an unsigned comparison, `imageWidth` being
`uint32_t`). -/
def verifyFileResult (fileOpen : Bool) (h : BmpHeader) (ledCount : Int) :
    Option VerifyFailure :=
  if !fileOpen then some VerifyFailure.unableToOpenFile
  else if !fileOpen then some VerifyFailure.unableToReadHeaders
  else if !(checkFileHeaders h) then some VerifyFailure.notCompatibleFile
  else if u32 ledCount < u32 h.imageWidth then
    some VerifyFailure.widthGreaterThanLedCount
  else none

/-- The `fileOk` flag `verifyFile` leaves behind: `true` exactly on the
success path. -/
def verifyFileOk (fileOpen : Bool) (h : BmpHeader) (ledCount : Int) : Bool :=
  (verifyFileResult fileOpen h ledCount).isNone

/-- The five panel buttons (readButtons, lines 1087-1129). -/
inductive Button where
  | up
  | down
  | left
  | right
  | select
deriving DecidableEq

/-- The sketch's mutable globals that the setup configuration loop touches:
`stateInt`, `fileOk`, `brightness`, `ledCount`, `ledOffset`, `currentRow`. -/
structure SysState where
  stateInt : Int
  fileOk : Bool
  brightness : Int
  ledCount : Int
  ledOffset : Int
  currentRow : Int
deriving DecidableEq

/-- `increaseLedCount` (lines 1685-1696): increment, wrap above
`MAX_LED_COUNT` to 1, then `checkLedOffset`; returns (ledCount, ledOffset). -/
def increaseLedCount (imageWidth ledCount ledOffset : Int) : Int × Int :=
  let lc := ledCount + 1
  if lc > MAX_LED_COUNT then (1, checkLedOffset imageWidth 1 ledOffset)
  else (lc, checkLedOffset imageWidth lc ledOffset)

/-- `decreaseLedCount` (lines 1701-1712): decrement, wrap below 1 to
`MAX_LED_COUNT`, then `checkLedOffset`. -/
def decreaseLedCount (imageWidth ledCount ledOffset : Int) : Int × Int :=
  let lc := ledCount - 1
  if lc < 1 then (MAX_LED_COUNT, checkLedOffset imageWidth MAX_LED_COUNT ledOffset)
  else (lc, checkLedOffset imageWidth lc ledOffset)

/-- `increaseLedOffset` (lines 1717-1722): increment; the comparison against
`ledCount - imageWidth` is unsigned, as in `checkLedOffset`. -/
def increaseLedOffset (imageWidth ledCount ledOffset : Int) : Int :=
  let o := ledOffset + 1
  if u32 o > u32 (ledCount - imageWidth) then 0 else o

/-- `decreaseLedOffset` (lines 1727-1733): decrement; below 0 the offset is
set to the `uint32_t` value of `ledCount - imageWidth`. -/
def decreaseLedOffset (imageWidth ledCount ledOffset : Int) : Int :=
  let o := ledOffset - 1
  if o < 0 then u32 (ledCount - imageWidth) else o

/-- `writeAllEepromData` (lines 1771-1775): `writeEepromLedCount` clamps only
its local parameter (the global `ledCount` is unchanged),
`writeEepromBrightness` stores the unchanged brightness back, and
`writeEepromLedOffset` reclamps the global `ledOffset`. -/
def writeAllEepromData (imageWidth : Int) (s : SysState) : SysState :=
  { s with ledOffset := writeEepromLedOffset imageWidth s.ledCount s.ledOffset }

/-- `setStateDepartingConfig` (lines 1881-1885): write all EEPROM data, rerun
`verifyFile` (which sets `fileOk`), set `stateInt = 1` (the row state). -/
def setStateDepartingConfig (h : BmpHeader) (fileOpen : Bool) (s : SysState) :
    SysState :=
  let s1 := writeAllEepromData h.imageWidth s
  { s1 with fileOk := verifyFileOk fileOpen h s1.ledCount, stateInt := 1 }

/-- `uiBrightness` (lines 1999-2028), reduced to the effect of the one button
press that ends its inner loop. -/
def uiBrightnessStep (h : BmpHeader) (fileOpen : Bool) (b : Button)
    (s : SysState) : SysState :=
  match b with
  | .right => { s with brightness := increaseBrightnessVar s.brightness }
  | .left => { s with brightness := decreaseBrightnessVar s.brightness }
  | .up => { s with stateInt := 13 }
  | .down => { s with stateInt := 11 }
  | .select => setStateDepartingConfig h fileOpen s

/-- `uiOffset` (lines 2034-2064). -/
def uiOffsetStep (h : BmpHeader) (fileOpen : Bool) (b : Button)
    (s : SysState) : SysState :=
  match b with
  | .up => { s with stateInt := 10 }
  | .down => { s with stateInt := 12 }
  | .left =>
    { s with ledOffset := decreaseLedOffset h.imageWidth s.ledCount s.ledOffset }
  | .right =>
    { s with ledOffset := increaseLedOffset h.imageWidth s.ledCount s.ledOffset }
  | .select => setStateDepartingConfig h fileOpen s

/-- `uiLedCount` (lines 2069-2102). -/
def uiLedCountStep (h : BmpHeader) (fileOpen : Bool) (b : Button)
    (s : SysState) : SysState :=
  match b with
  | .up => { s with stateInt := 11 }
  | .down => { s with stateInt := 13 }
  | .left =>
    let p := decreaseLedCount h.imageWidth s.ledCount s.ledOffset
    { s with ledCount := p.1, ledOffset := p.2 }
  | .right =>
    let p := increaseLedCount h.imageWidth s.ledCount s.ledOffset
    { s with ledCount := p.1, ledOffset := p.2 }
  | .select => setStateDepartingConfig h fileOpen s

/-- `uiResetToDefault` (lines 1963-1993); a left press is ignored by its
inner loop. -/
def uiResetStep (h : BmpHeader) (fileOpen : Bool) (b : Button)
    (s : SysState) : SysState :=
  match b with
  | .up => { s with stateInt := 12 }
  | .down => { s with stateInt := 10 }
  | .right =>
    { s with brightness := 1, ledCount := MAX_LED_COUNT, ledOffset := 0 }
  | .left => s
  | .select => setStateDepartingConfig h fileOpen s

/-- One iteration of the configuration loop in `setup` (lines 2160-2182):
dispatch on `stateInt` (10 brightness, 11 offset, 12 LED count, 13 reset),
then the recovery `if ((!fileOk) && (stateInt == 1))` which sets `stateInt`
to 0 and runs `uiIntro` — and `uiIntro` (lines 1890-1912), on the button
press that ends it, loads the persisted row and sets `stateInt = 10`; the
recovery and that button press are modelled as part of the same step. -/
def configStep (h : BmpHeader) (fileOpen : Bool) (eepromRow : Int) (b : Button)
    (s : SysState) : SysState :=
  let s1 :=
    if s.stateInt = 10 then uiBrightnessStep h fileOpen b s
    else if s.stateInt = 11 then uiOffsetStep h fileOpen b s
    else if s.stateInt = 12 then uiLedCountStep h fileOpen b s
    else if s.stateInt = 13 then uiResetStep h fileOpen b s
    else s
  if s1.fileOk = false ∧ s1.stateInt = 1 then
    { s1 with stateInt := 10, currentRow := readEepromRow h.imageHeight eepromRow }
  else s1

/-- The configuration loop `while (stateInt != 1) { ... }` of `setup`, driven
by the successive effective button presses; it stops when `stateInt = 1`
(entering row-display mode, after which `loop()` runs `uiDisplayRow`). -/
def configLoop (h : BmpHeader) (fileOpen : Bool) (eepromRow : Int) :
    SysState → List Button → SysState
  | s, [] => s
  | s, b :: bs =>
    if s.stateInt = 1 then s
    else configLoop h fileOpen eepromRow (configStep h fileOpen eepromRow b s) bs

lemma verifyFileOk_width (h : BmpHeader) (fo : Bool) (lc : Int)
    (hw : 0 ≤ h.imageWidth ∧ h.imageWidth < 4294967296)
    (hlc : 1 ≤ lc ∧ lc ≤ MAX_LED_COUNT) :
    verifyFileOk fo h lc = true → h.imageWidth ≤ lc := by
  intro hok
  unfold verifyFileOk verifyFileResult at hok
  unfold MAX_LED_COUNT at hlc
  split_ifs at hok with h1 h2 h3
  · simp at hok
  · simp at hok
  · simp at hok
  · unfold u32 at h3
    omega

lemma verifyFileOk_false_of_bad_headers (h : BmpHeader) (fo : Bool) (lc : Int)
    (hchk : checkFileHeaders h = false) :
    verifyFileOk fo h lc = false := by
  unfold verifyFileOk verifyFileResult
  split_ifs with h1 h2 h3 <;> simp_all

lemma verifyFileOk_false_of_narrow (h : BmpHeader) (fo : Bool) (lc : Int)
    (hw : 0 ≤ h.imageWidth ∧ h.imageWidth < 4294967296)
    (hlc : 1 ≤ lc ∧ lc ≤ MAX_LED_COUNT)
    (hnarrow : lc < h.imageWidth) :
    verifyFileOk fo h lc = false := by
  unfold verifyFileOk verifyFileResult
  unfold MAX_LED_COUNT at hlc
  split_ifs with h1 h2 h3 <;> try simp_all
  exfalso
  unfold u32 at h3
  omega

lemma configStep_ledCount_bounds (h : BmpHeader) (fo : Bool) (er : Int)
    (b : Button) (s : SysState)
    (hlc : 1 ≤ s.ledCount ∧ s.ledCount ≤ MAX_LED_COUNT) :
    1 ≤ (configStep h fo er b s).ledCount ∧
      (configStep h fo er b s).ledCount ≤ MAX_LED_COUNT := by
  cases b <;>
    simp only [configStep, uiBrightnessStep, uiOffsetStep, uiLedCountStep,
      uiResetStep, setStateDepartingConfig, writeAllEepromData,
      increaseLedCount, decreaseLedCount] <;>
    split_ifs <;> simp_all [MAX_LED_COUNT] <;> omega

lemma configStep_enter_row (h : BmpHeader) (fo : Bool) (er : Int) (b : Button)
    (s : SysState)
    (hw : 0 ≤ h.imageWidth ∧ h.imageWidth < 4294967296)
    (hlc : 1 ≤ s.ledCount ∧ s.ledCount ≤ MAX_LED_COUNT)
    (hs : s.stateInt ≠ 1) :
    (configStep h fo er b s).stateInt = 1 →
      (configStep h fo er b s).fileOk = true ∧
        h.imageWidth ≤ (configStep h fo er b s).ledCount := by
  intro hone
  cases b <;>
    simp only [configStep, uiBrightnessStep, uiOffsetStep, uiLedCountStep,
      uiResetStep, setStateDepartingConfig, writeAllEepromData] at hone ⊢ <;>
    split_ifs at hone ⊢ <;>
    simp_all <;>
    exact verifyFileOk_width h fo s.ledCount hw hlc (by assumption)

lemma configLoop_of_stateInt_one (h : BmpHeader) (fo : Bool) (er : Int)
    (s : SysState) (bs : List Button) (h1 : s.stateInt = 1) :
    configLoop h fo er s bs = s := by
  cases bs with
  | nil => rfl
  | cons b bs => simp [configLoop, h1]

lemma configLoop_enter_row (h : BmpHeader) (fo : Bool) (er : Int)
    (s : SysState) (bs : List Button)
    (hw : 0 ≤ h.imageWidth ∧ h.imageWidth < 4294967296)
    (hlc : 1 ≤ s.ledCount ∧ s.ledCount ≤ MAX_LED_COUNT)
    (hs : s.stateInt ≠ 1) :
    (configLoop h fo er s bs).stateInt = 1 →
      (configLoop h fo er s bs).fileOk = true ∧
        h.imageWidth ≤ (configLoop h fo er s bs).ledCount := by
  induction bs generalizing s with
  | nil =>
    intro h1
    exact absurd h1 hs
  | cons b bs ih =>
    simp only [configLoop]
    rw [if_neg hs]
    by_cases hstep : (configStep h fo er b s).stateInt = 1
    · rw [configLoop_of_stateInt_one h fo er _ bs hstep]
      intro _
      exact configStep_enter_row h fo er b s hw hlc hs hstep
    · exact ih (configStep h fo er b s)
        (configStep_ledCount_bounds h fo er b s hlc) hstep

/-- Claim C4: with the header and LED count in range, (a) loading an image
wider than `ledCount` fails verification (`fileOk = false`), and (b) from any
non-row state, however the configuration loop is driven, it can only stop in
row-display mode (`stateInt = 1`, the `Ready` state from which `loop()`
renders rows) with `fileOk = true` and `imageWidth ≤ ledCount`; otherwise the
recovery branch keeps the user in the configuration states where `ledCount`
can be increased. -/
theorem c4_width_gating (h : BmpHeader) (fo : Bool) (er : Int) (s0 : SysState)
    (bs : List Button)
    (hw : 0 ≤ h.imageWidth ∧ h.imageWidth < 4294967296)
    (hlc : 1 ≤ s0.ledCount ∧ s0.ledCount ≤ MAX_LED_COUNT)
    (hs : s0.stateInt ≠ 1) :
    (s0.ledCount < h.imageWidth → verifyFileOk fo h s0.ledCount = false) ∧
    ((configLoop h fo er s0 bs).stateInt = 1 →
      (configLoop h fo er s0 bs).fileOk = true ∧
        h.imageWidth ≤ (configLoop h fo er s0 bs).ledCount) := by
  constructor
  · intro hnarrow
    exact verifyFileOk_false_of_narrow h fo s0.ledCount hw hlc hnarrow
  · exact configLoop_enter_row h fo er s0 bs hw hlc hs

/-- Witness for C4: a 4-wide bitmap with `ledCount = 60`; one select press
departs configuration, verification succeeds, and the loop stops in the row
state with `4 ≤ 60`. -/
theorem c4_width_gating_witness :
    ((60 : Int) < 4 →
      verifyFileOk true ⟨54, 4, 4, 24, 0⟩ 60 = false) ∧
    ((configLoop ⟨54, 4, 4, 24, 0⟩ true 0 ⟨10, false, 50, 60, 0, 0⟩
        [Button.select]).stateInt = 1 →
      (configLoop ⟨54, 4, 4, 24, 0⟩ true 0 ⟨10, false, 50, 60, 0, 0⟩
          [Button.select]).fileOk = true ∧
        (4 : Int) ≤ (configLoop ⟨54, 4, 4, 24, 0⟩ true 0 ⟨10, false, 50, 60, 0, 0⟩
          [Button.select]).ledCount) :=
  c4_width_gating ⟨54, 4, 4, 24, 0⟩ true 0 ⟨10, false, 50, 60, 0, 0⟩
    [Button.select] (by decide) (by decide) (by decide)

lemma configStep_stuck (h : BmpHeader) (fo : Bool) (er : Int) (b : Button)
    (s : SysState) (hchk : checkFileHeaders h = false)
    (hs : s.stateInt ≠ 1) :
    (configStep h fo er b s).stateInt ≠ 1 := by
  have hvf : ∀ lc : Int, verifyFileOk fo h lc = false := fun lc =>
    verifyFileOk_false_of_bad_headers h fo lc hchk
  cases b <;>
    simp only [configStep, uiBrightnessStep, uiOffsetStep, uiLedCountStep,
      uiResetStep, setStateDepartingConfig, writeAllEepromData] <;>
    split_ifs <;> simp_all

lemma configLoop_stuck (h : BmpHeader) (fo : Bool) (er : Int)
    (s : SysState) (bs : List Button) (hchk : checkFileHeaders h = false)
    (hs : s.stateInt ≠ 1) :
    (configLoop h fo er s bs).stateInt ≠ 1 := by
  induction bs generalizing s with
  | nil => exact hs
  | cons b bs ih =>
    simp only [configLoop]
    rw [if_neg hs]
    exact ih (configStep h fo er b s) (configStep_stuck h fo er b s hchk hs)

/-- Claim C5: a parsed header with `bitsPerPixel ≠ 24` or `compression ≠ 0`
makes `verifyFile` take the "Not compatable file" branch (the spec's
`UnsupportedFormatError`) and leave `fileOk = false`; and from any non-row
state the configuration loop can never reach `stateInt = 1`, the only state
from which `uiDisplayRow`/`showLightsForRow` perform pixel reads — so no
pixel read is ever performed on that file. -/
theorem c5_format_rejection (h : BmpHeader) (er lc : Int) (s0 : SysState)
    (bs : List Button)
    (hbad : h.bitsPerPixel ≠ 24 ∨ h.compression ≠ 0)
    (hs : s0.stateInt ≠ 1) :
    verifyFileResult true h lc = some VerifyFailure.notCompatibleFile ∧
    verifyFileOk true h lc = false ∧
    (configLoop h true er s0 bs).stateInt ≠ 1 := by
  have hchk : checkFileHeaders h = false := by
    unfold checkFileHeaders
    split_ifs <;> simp_all
  refine ⟨?_, ?_, ?_⟩
  · simp [verifyFileResult, hchk]
  · exact verifyFileOk_false_of_bad_headers h true lc hchk
  · exact configLoop_stuck h true er s0 bs hchk hs

/-- Witness for C5: an 8-bit header (`bitsPerPixel = 8`) is rejected and the
loop driven by a select press never reaches the row state. -/
theorem c5_format_rejection_witness :
    verifyFileResult true ⟨54, 4, 4, 8, 0⟩ 60 =
      some VerifyFailure.notCompatibleFile ∧
    verifyFileOk true ⟨54, 4, 4, 8, 0⟩ 60 = false ∧
    (configLoop ⟨54, 4, 4, 8, 0⟩ true 0 ⟨10, false, 50, 60, 0, 0⟩
        [Button.select]).stateInt ≠ 1 :=
  c5_format_rejection ⟨54, 4, 4, 8, 0⟩ 0 60 ⟨10, false, 50, 60, 0, 0⟩
    [Button.select] (by decide) (by decide)

end Loom
